import Mathlib

/-!
Shallow embedding of the multiplayer tic-tac-toe server (`src/server.js`)
and proofs about its room/turn state machine.

Conventions of the embedding:
* A board cell is `Option Symbol`: `none` is the empty string cell `''`,
  `some s` is `'X'` or `'O'`.  The database stores the board as a 9-character
  string; `boardToArray`/`arrayToBoard` are mutually inverse on such strings,
  so the model works with the array form throughout.
* The two tables `game_rooms` and `players` become `Store.rooms` (an
  association list keyed by room code) and `Store.players` (a list of rows
  with unique `socket_id`, enforced by the upsert).
* The per-socket fields `socket.roomCode` / `socket.playerSymbol` become the
  `Session` record.
* Each socket handler becomes a function from the store (plus session and
  payload) to the new store together with either the emitted error (sent to
  the acting socket only) or the broadcast payload.
-/

namespace TicTacToe

/-- Player mark, `'X'` or `'O'`. -/
inductive Symbol : Type
  | X
  | O
deriving DecidableEq, Repr

/-- The opposite mark: `socket.playerSymbol === 'X' ? 'O' : 'X'` (line 337). -/
def Symbol.other : Symbol → Symbol
  | .X => .O
  | .O => .X

/-- One board cell: `none` is the empty cell `''`. -/
abbrev Cell := Option Symbol

/-- A board is the JS array produced by `boardToArray` (9 cells in play). -/
abbrev Board := List Cell

/-- Cell access `board[i]`, with out-of-range reads giving the empty value
(JS `undefined` is falsy exactly like `''`). -/
def cellAt (board : Board) (i : Nat) : Cell := board.getD i none

/-- The `winPatterns` table of `checkWinner` (lines 83-87): 3 rows, 3 columns,
2 diagonals, in source order. -/
def winPatterns : List (Nat × Nat × Nat) :=
  [(0, 1, 2), (3, 4, 5), (6, 7, 8),
   (0, 3, 6), (1, 4, 7), (2, 5, 8),
   (0, 4, 8), (2, 4, 6)]

/-- One iteration of the `for (let pattern of winPatterns)` body:
`board[a] && board[a] === board[b] && board[a] === board[c]` (line 91). -/
def checkPattern (board : Board) (p : Nat × Nat × Nat) : Option Symbol :=
  match cellAt board p.1 with
  | none => none
  | some s =>
      if cellAt board p.2.1 = some s ∧ cellAt board p.2.2 = some s then some s else none

/-- The `for` loop of `checkWinner`: first pattern giving a symbol wins. -/
def findWin (board : Board) : List (Nat × Nat × Nat) → Option Symbol
  | [] => none
  | p :: rest =>
      match checkPattern board p with
      | some s => some s
      | none => findWin board rest

/-- Result of `checkWinner`: the JS values `'X'`/`'O'`/`'draw'`; the overall
`Option` is JS `null`. -/
inductive WinnerVal : Type
  | sym (s : Symbol)
  | draw
deriving DecidableEq, Repr

/-- The function `checkWinner(board)` (lines 82-101): scan the 8 patterns,
else `'draw'` when `board.every(cell => cell !== '')`, else `null`. -/
def checkWinner (board : Board) : Option WinnerVal :=
  match findWin board winPatterns with
  | some s => some (.sym s)
  | none => if board.all (fun c => c.isSome) then some .draw else none

/-- Specification-side predicate: pattern `p` is uniformly filled with `s`. -/
def uniformTriple (board : Board) (p : Nat × Nat × Nat) (s : Symbol) : Prop :=
  cellAt board p.1 = some s ∧ cellAt board p.2.1 = some s ∧ cellAt board p.2.2 = some s

/-- Room/game status values of the `game_status` column. -/
inductive Status : Type
  | waiting
  | playing
  | finished
deriving DecidableEq, Repr

/-- A row of the `game_rooms` table (the `room_code` key is held by the
association list). -/
structure Room : Type where
  player1Id : Option String
  player2Id : Option String
  currentPlayer : Symbol
  board : Board
  gameStatus : Status
  winner : Option Symbol
deriving DecidableEq, Repr

/-- A row of the `players` table (`socket_id` is unique). -/
structure Player : Type where
  socketId : String
  roomCode : String
  symbol : Symbol
  name : String
  connected : Bool
deriving DecidableEq, Repr

/-- The per-socket mutable fields `socket.roomCode` and `socket.playerSymbol`
(lines 243-244), plus the socket identity. -/
structure Session : Type where
  socketId : String
  roomCode : Option String
  playerSymbol : Option Symbol
deriving DecidableEq, Repr

/-- The persistent database: both tables. -/
structure Store : Type where
  rooms : List (String × Room)
  players : List Player
deriving DecidableEq, Repr

/-- The board value `'         '` (9 spaces) a new room is created with. -/
def emptyBoard : Board := List.replicate 9 none

/-- Column defaults of `game_rooms`: `current_player 'X'`, empty board,
`game_status 'waiting'`, `winner NULL`. -/
def freshRoom : Room :=
  { player1Id := none, player2Id := none, currentPlayer := .X,
    board := emptyBoard, gameStatus := .waiting, winner := none }

/-- The query `SELECT * FROM game_rooms WHERE room_code = $1`. -/
def lookupRoom : List (String × Room) → String → Option Room
  | [], _ => none
  | (c, r) :: rest, code => if c = code then some r else lookupRoom rest code

/-- The query `UPDATE game_rooms SET ... WHERE room_code = $1`: rewrite the
matching row with `f`, leave every other row alone. -/
def updateRoom (rs : List (String × Room)) (code : String) (f : Room → Room) :
    List (String × Room) :=
  rs.map (fun kv => if kv.1 = code then (kv.1, f kv.2) else kv)

/-- The query `SELECT * FROM players WHERE room_code = $1 AND connected = true`. -/
def connectedPlayers (ps : List Player) (code : String) : List Player :=
  ps.filter (fun p => decide (p.roomCode = code) && p.connected)

/-- The query `INSERT INTO players ... ON CONFLICT (socket_id) DO UPDATE SET
room_code = $2, symbol = $3, name = $4, connected = true` (line 237). -/
def upsertPlayer (ps : List Player) (sid code : String) (sym : Symbol) (name : String) :
    List Player :=
  if ps.any (fun p => decide (p.socketId = sid)) then
    ps.map (fun p =>
      if p.socketId = sid then
        { p with roomCode := code, symbol := sym, name := name, connected := true }
      else p)
  else
    ps ++ [{ socketId := sid, roomCode := code, symbol := sym, name := name, connected := true }]

/-- The disconnect write
`UPDATE players SET connected = false WHERE socket_id = $1` (line 431). -/
def disconnectPlayer (st : Store) (sid : String) : Store :=
  { st with players := st.players.map (fun p =>
      if p.socketId = sid then { p with connected := false } else p) }

/-- Errors the `join-room` handler emits to the joining socket. -/
inductive JoinError : Type
  | RoomNotFound
  | RoomFull
deriving DecidableEq, Repr

/-- Errors the `make-move` handler emits to the moving socket. -/
inductive MoveError : Type
  | NotInRoom
  | RoomNotFound
  | GameNotInProgress
  | WrongTurn
  | InvalidMove
deriving DecidableEq, Repr

/-- The `gameState` payload broadcast with `io.to(roomCode).emit(...)`. -/
structure GameState : Type where
  roomCode : String
  board : Board
  currentPlayer : Symbol
  gameStatus : Status
  winner : Option Symbol
  players : List Player
  lastMove : Option (Int × Symbol)
deriving DecidableEq, Repr

/-- What the `UPDATE game_rooms` of `make-move` (lines 341-344) persists:
`winner === 'draw' ? null : winner` — a draw is stored as SQL `NULL` because
the `winner` column is `CHAR(1)`. -/
def storedWinner : Option WinnerVal → Option Symbol
  | some (.sym s) => some s
  | some .draw => none
  | none => none

/-- The per-socket `player-info` flag of `sendPlayerInfo` (line 124):
`player.symbol === room.current_player && room.game_status === 'playing'`. -/
def isMyTurn (sym : Symbol) (room : Room) : Bool :=
  decide (sym = room.currentPlayer) && decide (room.gameStatus = Status.playing)

/-- The `join-room` handler (lines 203-289).  Returns the store and session
after the handler, plus the assigned symbol or the emitted error. -/
def joinRoom (st : Store) (sock : Session) (code name : String) :
    Store × Session × Except JoinError Symbol :=
  match lookupRoom st.rooms code with
  | none => (st, sock, .error .RoomNotFound)
  | some _ =>
      if 2 ≤ (connectedPlayers st.players code).length then (st, sock, .error .RoomFull)
      else
        let isFirst : Bool := (connectedPlayers st.players code).length = 0
        let sym : Symbol := if isFirst then .X else .O
        let st1 : Store := { st with players := upsertPlayer st.players sock.socketId code sym name }
        let sock1 : Session := { sock with roomCode := some code, playerSymbol := some sym }
        let st2 : Store := { st1 with rooms := updateRoom st1.rooms code (fun r =>
          if isFirst then { r with player1Id := some sock.socketId }
          else { r with player2Id := some sock.socketId, gameStatus := .playing }) }
        (st2, sock1, .ok sym)

/-- The `make-move` handler (lines 291-377).  Every early `return` leaves the
store untouched and emits the error to the moving socket only; on success the
single `UPDATE game_rooms` commits the new board, flipped `current_player`,
status and stored winner, and the broadcast payload is built from the re-read
room row (which equals the updated row). -/
def makeMove (st : Store) (sock : Session) (code : String) (pos : Int) :
    Store × Except MoveError GameState :=
  if sock.roomCode ≠ some code then (st, .error .NotInRoom)
  else
    match lookupRoom st.rooms code with
    | none => (st, .error .RoomNotFound)
    | some room =>
        if room.gameStatus ≠ .playing then (st, .error .GameNotInProgress)
        else if sock.playerSymbol ≠ some room.currentPlayer then (st, .error .WrongTurn)
        else if pos < 0 ∨ 8 < pos ∨ cellAt room.board pos.toNat ≠ none then
          (st, .error .InvalidMove)
        else
          let s : Symbol := room.currentPlayer
          let newBoard : Board := room.board.set pos.toNat (some s)
          let w : Option WinnerVal := checkWinner newBoard
          let newStatus : Status := if w.isSome then .finished else .playing
          let upd : Room → Room := fun r =>
            { r with board := newBoard, currentPlayer := s.other,
                     gameStatus := newStatus, winner := storedWinner w }
          let st1 : Store := { st with rooms := updateRoom st.rooms code upd }
          (st1, .ok {
            roomCode := code, board := newBoard, currentPlayer := s.other,
            gameStatus := newStatus, winner := storedWinner w,
            players := connectedPlayers st1.players code,
            lastMove := some (pos, s) })

/-- The body of the deferred cleanup `setTimeout` (lines 443-459), applied to
the live store at fire time: re-read the connected players and delete the
room and its player rows only when none is connected. -/
def cleanupRoom (st : Store) (code : String) : Store :=
  if (connectedPlayers st.players code).length = 0 then
    { rooms := st.rooms.filter (fun kv => decide (kv.1 ≠ code)),
      players := st.players.filter (fun p => decide (p.roomCode ≠ code)) }
  else st

/-- The read-only lookup `GET /api/room/:code` (lines 167-197). -/
def roomLookupApi (st : Store) (code : String) : Except JoinError (Room × List Player) :=
  match lookupRoom st.rooms code with
  | none => .error .RoomNotFound
  | some r => .ok (r, connectedPlayers st.players code)

/-- Error of `POST /api/create-room` when the retry budget is spent. -/
inductive CreateError : Type
  | RoomCodeExhausted
deriving DecidableEq, Repr

/-- The `do { roomCode = generateRoomCode(); attempts++; if (fresh) break; }
while (attempts < 10)` loop of `POST /api/create-room` (lines 137-148).
`collides k` says whether the k-th generated candidate already exists;
the result is the final value of `attempts`.  `fuel` only bounds the
recursion and is always sufficient when called with 10. -/
def genLoop (collides : Nat → Bool) : Nat → Nat → Nat
  | 0, attempts => attempts
  | fuel + 1, attempts =>
      if collides attempts = false then attempts + 1
      else if attempts + 1 < 10 then genLoop collides fuel (attempts + 1)
      else attempts + 1

/-- The handler `POST /api/create-room` (lines 131-165): run the generation
loop, answer `RoomCodeExhausted` when `attempts >= 10`, otherwise insert a
fresh room under the last generated candidate `cand (a - 1)`. -/
def createRoom (st : Store) (cand : Nat → String) : Store × Except CreateError String :=
  let collides : Nat → Bool := fun k => (lookupRoom st.rooms (cand k)).isSome
  let a : Nat := genLoop collides 10 0
  if 10 ≤ a then (st, .error .RoomCodeExhausted)
  else ({ st with rooms := st.rooms ++ [(cand (a - 1), freshRoom)] }, .ok (cand (a - 1)))

/-- The `join-room` handler with a persistence fault injected at the writes:
`okWrites` is how many write queries succeed before the pool throws (the
handler performs the player upsert, then the room update).  The `Bool` says
whether the `catch` block ran (the socket got `'Failed to join room'`).
A fault in one of the reads before the first write leaves the store exactly
as in the `okWrites = 0` case. -/
def joinRoomFaulty (st : Store) (sock : Session) (code name : String) (okWrites : Nat) :
    Store × Bool :=
  match lookupRoom st.rooms code with
  | none => (st, false)
  | some _ =>
      if 2 ≤ (connectedPlayers st.players code).length then (st, false)
      else
        let isFirst : Bool := (connectedPlayers st.players code).length = 0
        let sym : Symbol := if isFirst then .X else .O
        if okWrites = 0 then (st, true)
        else
          let st1 : Store := { st with players := upsertPlayer st.players sock.socketId code sym name }
          if okWrites = 1 then (st1, true)
          else
            let st2 : Store := { st1 with rooms := updateRoom st1.rooms code (fun r =>
              if isFirst then { r with player1Id := some sock.socketId }
              else { r with player2Id := some sock.socketId, gameStatus := .playing }) }
            (st2, false)

/-- The `make-move` handler with a persistence fault injected at the writes:
its only write is the single `UPDATE game_rooms` statement. -/
def makeMoveFaulty (st : Store) (sock : Session) (code : String) (pos : Int)
    (okWrites : Nat) : Store × Bool :=
  if sock.roomCode ≠ some code then (st, false)
  else
    match lookupRoom st.rooms code with
    | none => (st, false)
    | some room =>
        if room.gameStatus ≠ .playing then (st, false)
        else if sock.playerSymbol ≠ some room.currentPlayer then (st, false)
        else if pos < 0 ∨ 8 < pos ∨ cellAt room.board pos.toNat ≠ none then (st, false)
        else if okWrites = 0 then (st, true)
        else
          let s : Symbol := room.currentPlayer
          let newBoard : Board := room.board.set pos.toNat (some s)
          let w : Option WinnerVal := checkWinner newBoard
          let newStatus : Status := if w.isSome then Status.finished else Status.playing
          ({ st with rooms := updateRoom st.rooms code (fun r =>
              { r with board := newBoard, currentPlayer := s.other,
                       gameStatus := newStatus, winner := storedWinner w }) }, false)

/-- Apply a sequence of `make-move` events; `none` as soon as one is rejected. -/
def applyMoves (st : Store) (code : String) : List (Session × Int) → Option Store
  | [] => some st
  | (sock, pos) :: rest =>
      match (makeMove st sock code pos).2 with
      | .error _ => none
      | .ok _ => applyMoves (makeMove st sock code pos).1 code rest

/-- Concrete board for the C1 witness: X has completed the top row. -/
def c1Board : Board :=
  [some Symbol.X, some Symbol.X, some Symbol.X,
   some Symbol.O, some Symbol.O, none, none, none, none]

/-- The SET clause of the `UPDATE game_rooms` in `make-move` (lines 341-344),
as a row transformer: values computed from the previously read `room`,
written over the matching row `r` (whose other columns are kept). -/
def movedRoom (room : Room) (pos : Int) : Room → Room := fun r =>
  { r with
    board := room.board.set pos.toNat (some room.currentPlayer),
    currentPlayer := room.currentPlayer.other,
    gameStatus :=
      if (checkWinner (room.board.set pos.toNat (some room.currentPlayer))).isSome
      then Status.finished else Status.playing,
    winner := storedWinner (checkWinner (room.board.set pos.toNat (some room.currentPlayer))) }

/-- A playing room with an empty board, as after the second join. -/
def playingRoom : Room := { freshRoom with gameStatus := .playing }

/-- Store with one playing room and no player rows (used by witnesses). -/
def wStorePlaying : Store := { rooms := [("ABC123", playingRoom)], players := [] }

/-- Store whose single room is finished. -/
def wStoreFinished : Store :=
  { rooms := [("ABC123", { playingRoom with gameStatus := .finished })], players := [] }

/-- Store whose single playing room has cell 0 occupied by O. -/
def wStoreOccupied : Store :=
  { rooms := [("ABC123", { playingRoom with
      board := [some Symbol.O, none, none, none, none, none, none, none, none] })],
    players := [] }

/-- Store with one room and a single, disconnected player row. -/
def wStoreAllDisconnected : Store :=
  { rooms := [("ABC123", playingRoom)],
    players := [{ socketId := "s1", roomCode := "ABC123", symbol := .X,
                  name := "Alice", connected := false }] }

/-- Store with one room and one connected player row. -/
def wStoreOneConnected : Store :=
  { rooms := [("ABC123", playingRoom)],
    players := [{ socketId := "s2", roomCode := "ABC123", symbol := .O,
                  name := "Bob", connected := true }] }

/-- Store holding exactly one fresh (just created) room and no player rows. -/
def oneRoomStore : Store := { rooms := [("ABC123", freshRoom)], players := [] }

/-- C3 scenario, step 1: Alice joins the fresh room with socket s1. -/
def c3Store1 : Store := (joinRoom oneRoomStore ⟨"s1", none, none⟩ "ABC123" "Alice").1

/-- C3 scenario, step 2: Bob joins with socket s2. -/
def c3Store2 : Store := (joinRoom c3Store1 ⟨"s2", none, none⟩ "ABC123" "Bob").1

/-- C3 scenario, step 3: socket s1 disconnects. -/
def c3Store3 : Store := disconnectPlayer c3Store2 "s1"

/-- C3 scenario, step 4: Alice reconnects under the new socket s3. -/
def c3Store4 : Store := (joinRoom c3Store3 ⟨"s3", none, none⟩ "ABC123" "Carol").1

/-- Board where X completes the top row by playing cell 2. -/
def winPreBoard : Board :=
  [some Symbol.X, some Symbol.X, none, some Symbol.O, some Symbol.O, none, none, none, none]

/-- Playing room one X move away from a win. -/
def winRoom : Room :=
  { player1Id := none, player2Id := none, currentPlayer := .X,
    board := winPreBoard, gameStatus := .playing, winner := none }

/-- Store holding `winRoom`. -/
def winStore : Store := { rooms := [("ABC123", winRoom)], players := [] }

/-- The session of the X player bound to room ABC123. -/
def moverX : Session := ⟨"s1", some "ABC123", some Symbol.X⟩

/-- Board one X move (cell 8) away from a draw: no triple can be completed. -/
def c2PreBoard : Board :=
  [some Symbol.X, some Symbol.O, some Symbol.X,
   some Symbol.X, some Symbol.O, some Symbol.O,
   some Symbol.O, some Symbol.X, none]

/-- Playing room about to end in a draw. -/
def c2Room : Room :=
  { player1Id := none, player2Id := none, currentPlayer := .X,
    board := c2PreBoard, gameStatus := .playing, winner := none }

/-- Store holding `c2Room`. -/
def c2Store : Store := { rooms := [("ABC123", c2Room)], players := [] }

/-- The room row after the drawing move: finished, full board, winner NULL. -/
def c2FinalRoom : Room :=
  { player1Id := none, player2Id := none, currentPlayer := .O,
    board := [some Symbol.X, some Symbol.O, some Symbol.X,
              some Symbol.X, some Symbol.O, some Symbol.O,
              some Symbol.O, some Symbol.X, some Symbol.X],
    gameStatus := .finished, winner := none }

/-- Session of the O player bound to room ABC123. -/
def moverO : Session := ⟨"s2", some "ABC123", some Symbol.O⟩

/-- Two alternating winner-free moves for the C8 witness. -/
def c8Moves : List (Session × Int) := [(moverX, 0), (moverO, 1)]

/-- The room after the two moves of `c8Moves`: X back to move. -/
def c8Room2 : Room :=
  { player1Id := none, player2Id := none, currentPlayer := .X,
    board := [some Symbol.X, some Symbol.O, none, none, none, none, none, none, none],
    gameStatus := .playing, winner := none }

/-- The store after the two moves of `c8Moves`. -/
def c8Final : Store := { rooms := [("ABC123", c8Room2)], players := [] }

/-- Nine already-used room codes for the create-room counterexample. -/
def c5Codes : List String := ["R0", "R1", "R2", "R3", "R4", "R5", "R6", "R7", "R8"]

/-- Candidate stream whose first nine codes collide and whose tenth is fresh. -/
def c5Cand : Nat → String := fun k => c5Codes.getD k "FRESH9"

/-- Store already holding rooms under the first nine candidate codes. -/
def c5Store : Store := { rooms := c5Codes.map (fun c => (c, freshRoom)), players := [] }

theorem lookupRoom_updateRoom_self (rs : List (String × Room)) (code : String)
    (f : Room → Room) :
    lookupRoom (updateRoom rs code f) code = (lookupRoom rs code).map f := by
  induction rs with
  | nil => rfl
  | cons kv rest ih =>
      obtain ⟨c, r⟩ := kv
      by_cases h : c = code
      · subst h
        have hupd : updateRoom ((c, r) :: rest) c f = (c, f r) :: updateRoom rest c f := by
          unfold updateRoom
          rw [List.map_cons]
          simp
        rw [hupd]
        simp [lookupRoom]
      · rw [show updateRoom ((c, r) :: rest) code f = (c, r) :: updateRoom rest code f from
          by simp [updateRoom, h]]
        simp only [lookupRoom, if_neg h]
        exact ih

theorem lookupRoom_filter_ne (rs : List (String × Room)) (code : String) :
    lookupRoom (rs.filter (fun kv => decide (kv.1 ≠ code))) code = none := by
  induction rs with
  | nil => rfl
  | cons kv rest ih =>
      obtain ⟨c, r⟩ := kv
      by_cases h : c = code <;> simpa [List.filter_cons, h, lookupRoom] using ih

theorem filter_roomCode_filter_ne (ps : List Player) (code : String) :
    (ps.filter (fun p => decide (p.roomCode ≠ code))).filter
      (fun p => decide (p.roomCode = code)) = [] := by
  induction ps with
  | nil => rfl
  | cons p rest ih =>
      by_cases h : p.roomCode = code <;> simp [List.filter_cons, h, ih]

theorem checkPattern_eq_some_iff (board : Board) (p : Nat × Nat × Nat) (s : Symbol) :
    checkPattern board p = some s ↔ uniformTriple board p s := by
  unfold uniformTriple
  cases h : cellAt board p.1 with
  | none =>
      simp only [checkPattern, h]
      constructor
      · intro hh; cases hh
      · rintro ⟨h1, -, -⟩; exact h1
  | some t =>
      simp only [checkPattern, h]
      by_cases hbc : cellAt board p.2.1 = some t ∧ cellAt board p.2.2 = some t
      · rw [if_pos hbc]
        constructor
        · intro hts
          obtain rfl : t = s := Option.some_inj.mp hts
          exact ⟨rfl, hbc.1, hbc.2⟩
        · rintro ⟨h1, -, -⟩
          exact h1
      · rw [if_neg hbc]
        constructor
        · intro hh; cases hh
        · rintro ⟨h1, h2, h3⟩
          obtain rfl : t = s := Option.some_inj.mp h1
          exact absurd ⟨h2, h3⟩ hbc

theorem checkPattern_eq_none_iff (board : Board) (p : Nat × Nat × Nat) :
    checkPattern board p = none ↔ ∀ s, ¬ uniformTriple board p s := by
  constructor
  · intro h s hu
    rw [(checkPattern_eq_some_iff board p s).mpr hu] at h
    cases h
  · intro h
    cases hc : checkPattern board p with
    | none => rfl
    | some s => exact absurd ((checkPattern_eq_some_iff board p s).mp hc) (h s)

theorem findWin_eq_none_iff (board : Board) (l : List (Nat × Nat × Nat)) :
    findWin board l = none ↔ ∀ p ∈ l, checkPattern board p = none := by
  induction l with
  | nil => simp [findWin]
  | cons a rest ih =>
      cases hc : checkPattern board a with
      | some s => simp [findWin, hc]
      | none => simp [findWin, hc, ih]

theorem findWin_eq_some_iff (board : Board) (l : List (Nat × Nat × Nat)) (s : Symbol) :
    findWin board l = some s ↔
      ∃ l1 p l2, l = l1 ++ p :: l2 ∧ checkPattern board p = some s ∧
        ∀ q ∈ l1, checkPattern board q = none := by
  induction l with
  | nil =>
      constructor
      · intro h; simp [findWin] at h
      · rintro ⟨l1, p, l2, heq, -, -⟩
        exact absurd heq.symm (by simp)
  | cons a rest ih =>
      cases hc : checkPattern board a with
      | some t =>
          constructor
          · intro h
            have hts : t = s := by
              have : some t = some s := by simpa [findWin, hc] using h
              exact Option.some_inj.mp this
            subst hts
            exact ⟨[], a, rest, rfl, hc, by simp⟩
          · rintro ⟨l1, p, l2, heq, hp, hnone⟩
            cases l1 with
            | nil =>
                obtain ⟨rfl, rfl⟩ := List.cons.inj heq
                rw [hc] at hp
                simpa [findWin, hc] using hp
            | cons b l1 =>
                obtain ⟨rfl, rfl⟩ := List.cons.inj heq
                have hb := hnone a (by simp)
                rw [hc] at hb
                cases hb
      | none =>
          have hstep : findWin board (a :: rest) = findWin board rest := by
            simp [findWin, hc]
          constructor
          · intro h
            rw [hstep] at h
            obtain ⟨l1, p, l2, rfl, hp, hnone⟩ := ih.mp h
            refine ⟨a :: l1, p, l2, rfl, hp, ?_⟩
            intro q hq
            rcases List.mem_cons.mp hq with rfl | hq'
            · exact hc
            · exact hnone q hq'
          · rintro ⟨l1, p, l2, heq, hp, hnone⟩
            rw [hstep]
            cases l1 with
            | nil =>
                obtain ⟨rfl, rfl⟩ := List.cons.inj heq
                rw [hc] at hp
                cases hp
            | cons b l1 =>
                obtain ⟨rfl, rfl⟩ := List.cons.inj heq
                exact ih.mpr ⟨l1, p, l2, rfl, hp, fun q hq => hnone q (by simp [hq])⟩

theorem checkWinner_win_iff (board : Board) (s : Symbol) :
    checkWinner board = some (WinnerVal.sym s) ↔ findWin board winPatterns = some s := by
  unfold checkWinner
  cases h : findWin board winPatterns with
  | some t => simp [h]
  | none => split_ifs <;> simp

theorem checkWinner_draw_iff (board : Board) :
    checkWinner board = some WinnerVal.draw ↔
      findWin board winPatterns = none ∧ board.all (fun c => c.isSome) = true := by
  unfold checkWinner
  cases h : findWin board winPatterns with
  | some t => simp [h]
  | none => split_ifs with hall <;> simp [h, hall]

theorem checkWinner_none_iff (board : Board) :
    checkWinner board = none ↔
      findWin board winPatterns = none ∧ ¬ board.all (fun c => c.isSome) = true := by
  unfold checkWinner
  cases h : findWin board winPatterns with
  | some t => simp [h]
  | none => split_ifs with hall <;> simp [h, hall]

theorem all_isSome_iff (board : Board) (h9 : board.length = 9) :
    board.all (fun c => c.isSome) = true ↔ ∀ i < 9, cellAt board i ≠ none := by
  rw [List.all_eq_true]
  constructor
  · intro h i hi
    have hlt : i < board.length := by omega
    have hcell : cellAt board i = board[i] := by
      simp [cellAt, List.getD_eq_getElem?_getD, List.getElem?_eq_getElem hlt]
    rw [hcell]
    have := h _ (List.getElem_mem hlt)
    simpa [Option.isSome_iff_ne_none] using this
  · intro h c hmem
    obtain ⟨i, hlt, rfl⟩ := List.getElem_of_mem hmem
    have hi : i < 9 := by omega
    have hcell : cellAt board i = board[i] := by
      simp [cellAt, List.getD_eq_getElem?_getD, List.getElem?_eq_getElem hlt]
    have := h i hi
    rw [hcell] at this
    simpa [Option.isSome_iff_ne_none] using this

/-- C1: for every 9-cell board, `checkWinner` returns a winner symbol iff some
pattern of `winPatterns` is uniform and non-empty, and then it is the first
such pattern's symbol in pattern order; it returns draw iff no pattern is
uniform and all 9 cells are non-empty; otherwise it returns none. -/
theorem C1_evaluate_characterization (board : Board) (h9 : board.length = 9) :
    (∀ s : Symbol, checkWinner board = some (WinnerVal.sym s) ↔
        ∃ l1 p l2, winPatterns = l1 ++ p :: l2 ∧ uniformTriple board p s ∧
          ∀ q ∈ l1, ∀ t, ¬ uniformTriple board q t) ∧
    ((∃ s, checkWinner board = some (WinnerVal.sym s)) ↔
        ∃ p ∈ winPatterns, ∃ s, uniformTriple board p s) ∧
    (checkWinner board = some WinnerVal.draw ↔
        ((∀ p ∈ winPatterns, ∀ s, ¬ uniformTriple board p s) ∧
          ∀ i < 9, cellAt board i ≠ none)) ∧
    (checkWinner board = none ↔
        ((∀ p ∈ winPatterns, ∀ s, ¬ uniformTriple board p s) ∧
          ∃ i < 9, cellAt board i = none)) := by
  have hwin : ∀ s : Symbol, checkWinner board = some (WinnerVal.sym s) ↔
      ∃ l1 p l2, winPatterns = l1 ++ p :: l2 ∧ uniformTriple board p s ∧
        ∀ q ∈ l1, ∀ t, ¬ uniformTriple board q t := by
    intro s
    rw [checkWinner_win_iff, findWin_eq_some_iff]
    constructor
    · rintro ⟨l1, p, l2, heq, hp, hnone⟩
      exact ⟨l1, p, l2, heq, (checkPattern_eq_some_iff board p s).mp hp,
        fun q hq => (checkPattern_eq_none_iff board q).mp (hnone q hq)⟩
    · rintro ⟨l1, p, l2, heq, hp, hnone⟩
      exact ⟨l1, p, l2, heq, (checkPattern_eq_some_iff board p s).mpr hp,
        fun q hq => (checkPattern_eq_none_iff board q).mpr (hnone q hq)⟩
  have hnonepat : (∀ p ∈ winPatterns, ∀ s, ¬ uniformTriple board p s) ↔
      findWin board winPatterns = none := by
    rw [findWin_eq_none_iff]
    constructor
    · intro h p hp
      exact (checkPattern_eq_none_iff board p).mpr (h p hp)
    · intro h p hp
      exact (checkPattern_eq_none_iff board p).mp (h p hp)
  refine ⟨hwin, ?_, ?_, ?_⟩
  · constructor
    · rintro ⟨s, hs⟩
      obtain ⟨l1, p, l2, heq, hp, -⟩ := (hwin s).mp hs
      exact ⟨p, by rw [heq]; simp, s, hp⟩
    · rintro ⟨p, hpmem, s, hp⟩
      cases hfw : findWin board winPatterns with
      | some t => exact ⟨t, (checkWinner_win_iff board t).mpr hfw⟩
      | none =>
          have := (findWin_eq_none_iff board winPatterns).mp hfw p hpmem
          exact absurd hp (((checkPattern_eq_none_iff board p).mp this) s)
  · rw [checkWinner_draw_iff, all_isSome_iff board h9, hnonepat]
  · rw [checkWinner_none_iff, all_isSome_iff board h9, hnonepat]
    constructor
    · rintro ⟨h1, h2⟩
      refine ⟨h1, ?_⟩
      by_contra hno
      push_neg at hno
      exact h2 fun i hi => hno i hi
    · rintro ⟨h1, i, hi, hc⟩
      exact ⟨h1, fun hall => (hall i hi) hc⟩

/-- Witness for C1 at a concrete board where X has completed the top row. -/
theorem C1_evaluate_characterization_witness :
    c1Board.length = 9 ∧
    ((∀ s : Symbol, checkWinner c1Board = some (WinnerVal.sym s) ↔
        ∃ l1 p l2, winPatterns = l1 ++ p :: l2 ∧ uniformTriple c1Board p s ∧
          ∀ q ∈ l1, ∀ t, ¬ uniformTriple c1Board q t) ∧
      ((∃ s, checkWinner c1Board = some (WinnerVal.sym s)) ↔
        ∃ p ∈ winPatterns, ∃ s, uniformTriple c1Board p s) ∧
      (checkWinner c1Board = some WinnerVal.draw ↔
        ((∀ p ∈ winPatterns, ∀ s, ¬ uniformTriple c1Board p s) ∧
          ∀ i < 9, cellAt c1Board i ≠ none)) ∧
      (checkWinner c1Board = none ↔
        ((∀ p ∈ winPatterns, ∀ s, ¬ uniformTriple c1Board p s) ∧
          ∃ i < 9, cellAt c1Board i = none))) :=
  ⟨rfl, C1_evaluate_characterization c1Board rfl⟩

/-- C6: every rejected move leaves the store (board, currentPlayer, status,
winner) unchanged, and each of the four rejection reasons — connection not
bound to the room, status not playing, mover not the current player,
position out of range or cell occupied — is answered with exactly the
corresponding error, emitted to the mover only (the handler broadcasts
nothing on a rejection: the error is the whole output). -/
theorem C6_move_rejections (st : Store) (sock : Session) (code : String) (pos : Int) :
    (∀ e, (makeMove st sock code pos).2 = .error e → (makeMove st sock code pos).1 = st) ∧
    (sock.roomCode ≠ some code → (makeMove st sock code pos).2 = .error .NotInRoom) ∧
    (∀ room, sock.roomCode = some code → lookupRoom st.rooms code = some room →
      room.gameStatus ≠ .playing →
      (makeMove st sock code pos).2 = .error .GameNotInProgress) ∧
    (∀ room, sock.roomCode = some code → lookupRoom st.rooms code = some room →
      room.gameStatus = .playing → sock.playerSymbol ≠ some room.currentPlayer →
      (makeMove st sock code pos).2 = .error .WrongTurn) ∧
    (∀ room, sock.roomCode = some code → lookupRoom st.rooms code = some room →
      room.gameStatus = .playing → sock.playerSymbol = some room.currentPlayer →
      (pos < 0 ∨ 8 < pos ∨ cellAt room.board pos.toNat ≠ none) →
      (makeMove st sock code pos).2 = .error .InvalidMove) := by
  refine ⟨?_, ?_, ?_, ?_, ?_⟩
  · intro e
    unfold makeMove
    split
    · exact fun _ => rfl
    · split
      · exact fun _ => rfl
      · split
        · exact fun _ => rfl
        · split
          · exact fun _ => rfl
          · split
            · exact fun _ => rfl
            · intro h
              simp at h
  · intro h1
    unfold makeMove
    rw [if_pos h1]
  · intro room h1 hr h2
    unfold makeMove
    rw [if_neg (by simp [h1])]
    simp only [hr]
    rw [if_pos h2]
  · intro room h1 hr h2 h4
    unfold makeMove
    rw [if_neg (by simp [h1])]
    simp only [hr]
    rw [if_neg (by simp [h2]), if_pos h4]
  · intro room h1 hr h2 h3 h5
    unfold makeMove
    rw [if_neg (by simp [h1])]
    simp only [hr]
    rw [if_neg (by simp [h2]), if_neg (by simp [h3]), if_pos h5]

/-- Witness for C6: the four rejection reasons at concrete stores. -/
theorem C6_move_rejections_witness :
    ((makeMove wStorePlaying ⟨"s1", none, none⟩ "ABC123" 0).2 = .error .NotInRoom ∧
      (makeMove wStorePlaying ⟨"s1", none, none⟩ "ABC123" 0).1 = wStorePlaying) ∧
    (makeMove wStoreFinished ⟨"s1", some "ABC123", some Symbol.X⟩ "ABC123" 0).2 =
      .error .GameNotInProgress ∧
    (makeMove wStorePlaying ⟨"s1", some "ABC123", some Symbol.O⟩ "ABC123" 0).2 =
      .error .WrongTurn ∧
    (makeMove wStoreOccupied ⟨"s1", some "ABC123", some Symbol.X⟩ "ABC123" 0).2 =
      .error .InvalidMove := by
  have t1 := C6_move_rejections wStorePlaying ⟨"s1", none, none⟩ "ABC123" 0
  have t2 := C6_move_rejections wStoreFinished ⟨"s1", some "ABC123", some Symbol.X⟩ "ABC123" 0
  have t3 := C6_move_rejections wStorePlaying ⟨"s1", some "ABC123", some Symbol.O⟩ "ABC123" 0
  have t4 := C6_move_rejections wStoreOccupied ⟨"s1", some "ABC123", some Symbol.X⟩ "ABC123" 0
  refine ⟨⟨t1.2.1 (by decide), t1.1 _ (t1.2.1 (by decide))⟩, ?_, ?_, ?_⟩
  · exact t2.2.2.1 { playingRoom with gameStatus := .finished }
      (by decide) (by decide) (by decide)
  · exact t3.2.2.2.1 playingRoom (by decide) (by decide) (by decide) (by decide)
  · exact t4.2.2.2.2 { playingRoom with
        board := [some Symbol.O, none, none, none, none, none, none, none, none] }
      (by decide) (by decide) (by decide) (by decide) (by decide)

/-- C9: the deferred cleanup, re-reading the live store at fire time, deletes
the room and all its player rows exactly when no player of the room is
connected at that moment, after which the lookup answers room-not-found;
when any player is connected at fire time, nothing at all is deleted. -/
theorem C9_cleanup_fire (st : Store) (code : String) :
    ((connectedPlayers st.players code).length = 0 →
      lookupRoom (cleanupRoom st code).rooms code = none ∧
      roomLookupApi (cleanupRoom st code) code = .error .RoomNotFound ∧
      (cleanupRoom st code).players.filter (fun p => decide (p.roomCode = code)) = []) ∧
    ((connectedPlayers st.players code).length ≠ 0 → cleanupRoom st code = st) := by
  constructor
  · intro h0
    have hlr : lookupRoom (cleanupRoom st code).rooms code = none := by
      unfold cleanupRoom
      rw [if_pos h0]
      exact lookupRoom_filter_ne st.rooms code
    refine ⟨hlr, ?_, ?_⟩
    · unfold roomLookupApi
      simp only [hlr]
    · unfold cleanupRoom
      rw [if_pos h0]
      exact filter_roomCode_filter_ne st.players code
  · intro h
    unfold cleanupRoom
    rw [if_neg h]

/-- Witness for C9: a store whose only player row is disconnected is cleaned
up; a store with a connected player row is left untouched. -/
theorem C9_cleanup_fire_witness :
    (lookupRoom (cleanupRoom wStoreAllDisconnected "ABC123").rooms "ABC123" = none ∧
      roomLookupApi (cleanupRoom wStoreAllDisconnected "ABC123") "ABC123" =
        .error .RoomNotFound ∧
      (cleanupRoom wStoreAllDisconnected "ABC123").players.filter
        (fun p => decide (p.roomCode = "ABC123")) = []) ∧
    cleanupRoom wStoreOneConnected "ABC123" = wStoreOneConnected :=
  ⟨(C9_cleanup_fire wStoreAllDisconnected "ABC123").1 (by decide),
   (C9_cleanup_fire wStoreOneConnected "ABC123").2 (by decide)⟩

/-- C5 (against the claim): when the first nine generated candidates collide
and the tenth is fresh, `POST /api/create-room` still answers the exhaustion
error and persists nothing — the `attempts >= 10` test after the loop cannot
tell a tenth collision from a tenth success. -/
theorem C5_tenth_attempt_lost :
    lookupRoom c5Store.rooms (c5Cand 9) = none ∧
    createRoom c5Store c5Cand = (c5Store, .error .RoomCodeExhausted) := by
  constructor
  · rfl
  · rfl

theorem Symbol.other_other (s : Symbol) : s.other.other = s := by
  cases s <;> rfl

theorem makeMove_ok_shape (st : Store) (sock : Session) (code : String) (pos : Int)
    (room : Room)
    (hbind : sock.roomCode = some code)
    (hroom : lookupRoom st.rooms code = some room)
    (hplay : room.gameStatus = .playing)
    (hturn : sock.playerSymbol = some room.currentPlayer)
    (hpos : ¬(pos < 0 ∨ 8 < pos ∨ cellAt room.board pos.toNat ≠ none)) :
    makeMove st sock code pos =
      ({ st with rooms := updateRoom st.rooms code (movedRoom room pos) },
       .ok { roomCode := code,
             board := room.board.set pos.toNat (some room.currentPlayer),
             currentPlayer := room.currentPlayer.other,
             gameStatus :=
               if (checkWinner (room.board.set pos.toNat (some room.currentPlayer))).isSome
               then Status.finished else Status.playing,
             winner := storedWinner (checkWinner (room.board.set pos.toNat (some room.currentPlayer))),
             players := connectedPlayers st.players code,
             lastMove := some (pos, room.currentPlayer) }) := by
  unfold makeMove
  rw [if_neg (by simp [hbind])]
  simp only [hroom]
  rw [if_neg (by simp [hplay]), if_neg (by simp [hturn]), if_neg hpos]
  rfl

theorem makeMove_ok_store (st : Store) (sock : Session) (code : String) (pos : Int)
    (gs : GameState) (h : (makeMove st sock code pos).2 = .ok gs) :
    ∃ room, lookupRoom st.rooms code = some room ∧
      (makeMove st sock code pos).1 =
        { st with rooms := updateRoom st.rooms code (movedRoom room pos) } := by
  revert h
  unfold makeMove
  split
  · intro h; exact absurd h (by simp)
  split
  · intro h; exact absurd h (by simp)
  next room heq =>
    split
    · intro h; exact absurd h (by simp)
    split
    · intro h; exact absurd h (by simp)
    split
    · intro h; exact absurd h (by simp)
    intro _
    exact ⟨room, heq, rfl⟩

theorem applyMoves_currentPlayer (code : String) (moves : List (Session × Int)) :
    ∀ st st' room room2,
      applyMoves st code moves = some st' →
      lookupRoom st.rooms code = some room →
      lookupRoom st'.rooms code = some room2 →
      room2.currentPlayer =
        if moves.length % 2 = 0 then room.currentPlayer else room.currentPlayer.other := by
  induction moves with
  | nil =>
      intro st st' room room2 happ hr hr2
      obtain rfl : st = st' := Option.some_inj.mp happ
      rw [hr] at hr2
      obtain rfl : room = room2 := Option.some_inj.mp hr2
      simp
  | cons m rest ih =>
      intro st st' room room2 happ hr hr2
      obtain ⟨sock, pos⟩ := m
      unfold applyMoves at happ
      cases hm : (makeMove st sock code pos).2 with
      | error e => rw [hm] at happ; cases happ
      | ok gs =>
          rw [hm] at happ
          obtain ⟨room0, hr0, hst1⟩ := makeMove_ok_store st sock code pos gs hm
          have he : room0 = room := by
            rw [hr] at hr0
            exact (Option.some_inj.mp hr0).symm
          rw [he] at hst1
          have hr1 : lookupRoom (makeMove st sock code pos).1.rooms code =
              some (movedRoom room pos room) := by
            rw [hst1]
            show lookupRoom (updateRoom st.rooms code (movedRoom room pos)) code = _
            rw [lookupRoom_updateRoom_self, hr]
            rfl
          have hrec := ih (makeMove st sock code pos).1 st' (movedRoom room pos room) room2
            happ hr1 hr2
          have hcp : (movedRoom room pos room).currentPlayer = room.currentPlayer.other := rfl
          rw [hcp] at hrec
          by_cases hp : rest.length % 2 = 0
          · have h1 : (rest.length + 1) % 2 ≠ 0 := by omega
            rw [hrec, if_pos hp]
            simp [List.length_cons, h1]
          · have h1 : (rest.length + 1) % 2 = 0 := by omega
            rw [hrec, if_neg hp, Symbol.other_other]
            simp [List.length_cons, h1]

/-- C2 counterexample: from a playing room one move from a draw, the move
that fills the last cell produces a finished room whose board evaluates to
draw but whose persisted winner column is NULL — so the stored winner does
not equal the board evaluation of that finished room. -/
theorem C2_draw_stored_as_null :
    lookupRoom (makeMove c2Store moverX "ABC123" 8).1.rooms "ABC123" = some c2FinalRoom ∧
    c2FinalRoom.gameStatus = .finished ∧
    checkWinner c2FinalRoom.board = some WinnerVal.draw ∧
    c2FinalRoom.winner = none ∧
    ¬ Option.map WinnerVal.sym c2FinalRoom.winner = checkWinner c2FinalRoom.board := by
  refine ⟨by decide, rfl, by decide, rfl, by decide⟩

/-- C2 (amended): after any successful move, the room is finished exactly when
the new board evaluates to a win or a draw, and the persisted winner column
holds the winning symbol for a win but NULL for a draw (the `CHAR(1)` column
cannot hold `'draw'`; the handler stores `winner === 'draw' ? null : winner`). -/
theorem C2_finished_winner (st : Store) (sock : Session) (code : String) (pos : Int)
    (room : Room)
    (hbind : sock.roomCode = some code)
    (hroom : lookupRoom st.rooms code = some room)
    (hplay : room.gameStatus = .playing)
    (hturn : sock.playerSymbol = some room.currentPlayer)
    (hpos : ¬(pos < 0 ∨ 8 < pos ∨ cellAt room.board pos.toNat ≠ none)) :
    ∃ room2, lookupRoom (makeMove st sock code pos).1.rooms code = some room2 ∧
      room2.board = room.board.set pos.toNat (some room.currentPlayer) ∧
      (room2.gameStatus = .finished ↔ checkWinner room2.board ≠ none) ∧
      room2.winner = storedWinner (checkWinner room2.board) ∧
      (∀ s, checkWinner room2.board = some (WinnerVal.sym s) → room2.winner = some s) ∧
      (checkWinner room2.board = some WinnerVal.draw → room2.winner = none) := by
  have hs := makeMove_ok_shape st sock code pos room hbind hroom hplay hturn hpos
  refine ⟨movedRoom room pos room, ?_, rfl, ?_, rfl, ?_, ?_⟩
  · rw [hs]
    show lookupRoom (updateRoom st.rooms code (movedRoom room pos)) code = _
    rw [lookupRoom_updateRoom_self, hroom]
    rfl
  · show (if (checkWinner (room.board.set pos.toNat (some room.currentPlayer))).isSome
        then Status.finished else Status.playing) = Status.finished ↔ _
    cases hw : checkWinner (room.board.set pos.toNat (some room.currentPlayer)) <;>
      simp [hw, movedRoom]
  · intro s hw
    show storedWinner (checkWinner (room.board.set pos.toNat (some room.currentPlayer))) = some s
    have : checkWinner (room.board.set pos.toNat (some room.currentPlayer)) =
        some (WinnerVal.sym s) := hw
    rw [this]
    rfl
  · intro hw
    show storedWinner (checkWinner (room.board.set pos.toNat (some room.currentPlayer))) = none
    have : checkWinner (room.board.set pos.toNat (some room.currentPlayer)) =
        some WinnerVal.draw := hw
    rw [this]
    rfl

/-- Witness for C2 (amended) at a winning move: X completes the top row. -/
theorem C2_finished_winner_witness :
    ∃ room2, lookupRoom (makeMove winStore moverX "ABC123" 2).1.rooms "ABC123" = some room2 ∧
      room2.board = winRoom.board.set (Int.toNat 2) (some winRoom.currentPlayer) ∧
      (room2.gameStatus = .finished ↔ checkWinner room2.board ≠ none) ∧
      room2.winner = storedWinner (checkWinner room2.board) ∧
      (∀ s, checkWinner room2.board = some (WinnerVal.sym s) → room2.winner = some s) ∧
      (checkWinner room2.board = some WinnerVal.draw → room2.winner = none) :=
  C2_finished_winner winStore moverX "ABC123" 2 winRoom
    (by decide) (by decide) (by decide) (by decide) (by decide)

/-- C10: every successful move — also one that finishes the game — stores and
broadcasts a currentPlayer equal to the opposite of the mover's symbol, so a
finished room's currentPlayer names the non-mover; and since the per-player
`isMyTurn` flag also requires status playing, nobody gets `isMyTurn = true`
in a finished room. -/
theorem C10_flip_after_move (st : Store) (sock : Session) (code : String) (pos : Int)
    (room : Room)
    (hbind : sock.roomCode = some code)
    (hroom : lookupRoom st.rooms code = some room)
    (hplay : room.gameStatus = .playing)
    (hturn : sock.playerSymbol = some room.currentPlayer)
    (hpos : ¬(pos < 0 ∨ 8 < pos ∨ cellAt room.board pos.toNat ≠ none)) :
    ∃ gs room2, (makeMove st sock code pos).2 = .ok gs ∧
      lookupRoom (makeMove st sock code pos).1.rooms code = some room2 ∧
      sock.playerSymbol = some room.currentPlayer ∧
      gs.currentPlayer = room.currentPlayer.other ∧
      room2.currentPlayer = room.currentPlayer.other ∧
      (∀ t, room2.gameStatus = .finished → isMyTurn t room2 = false) := by
  have hs := makeMove_ok_shape st sock code pos room hbind hroom hplay hturn hpos
  refine ⟨_, movedRoom room pos room, by rw [hs], ?_, hturn, rfl, rfl, ?_⟩
  · rw [hs]
    show lookupRoom (updateRoom st.rooms code (movedRoom room pos)) code = _
    rw [lookupRoom_updateRoom_self, hroom]
    rfl
  · intro t hfin
    unfold isMyTurn
    rw [hfin]
    simp

/-- Witness for C10 at a game-finishing move: X completes the top row. -/
theorem C10_flip_after_move_witness :
    ∃ gs room2, (makeMove winStore moverX "ABC123" 2).2 = .ok gs ∧
      lookupRoom (makeMove winStore moverX "ABC123" 2).1.rooms "ABC123" = some room2 ∧
      moverX.playerSymbol = some winRoom.currentPlayer ∧
      gs.currentPlayer = winRoom.currentPlayer.other ∧
      room2.currentPlayer = winRoom.currentPlayer.other ∧
      (∀ t, room2.gameStatus = .finished → isMyTurn t room2 = false) :=
  C10_flip_after_move winStore moverX "ABC123" 2 winRoom
    (by decide) (by decide) (by decide) (by decide) (by decide)

theorem upsertPlayer_fresh (ps : List Player) (sid code : String) (sym : Symbol)
    (name : String)
    (h : ps.any (fun p => decide (p.socketId = sid)) = false) :
    upsertPlayer ps sid code sym name =
      ps ++ [{ socketId := sid, roomCode := code, symbol := sym,
               name := name, connected := true }] := by
  unfold upsertPlayer
  rw [if_neg (by simp [h])]

theorem connectedPlayers_append (ps qs : List Player) (code : String) :
    connectedPlayers (ps ++ qs) code =
      connectedPlayers ps code ++ connectedPlayers qs code := by
  unfold connectedPlayers
  simp [List.filter_append]

theorem joinRoom_shape (st : Store) (sock : Session) (code name : String) (r : Room)
    (hroom : lookupRoom st.rooms code = some r)
    (hcount : (connectedPlayers st.players code).length < 2) :
    joinRoom st sock code name =
      if (connectedPlayers st.players code).length = 0 then
        ({ st with players := upsertPlayer st.players sock.socketId code Symbol.X name,
                   rooms := updateRoom st.rooms code
                     (fun rr => { rr with player1Id := some sock.socketId }) },
         { sock with roomCode := some code, playerSymbol := some Symbol.X }, .ok Symbol.X)
      else
        ({ st with players := upsertPlayer st.players sock.socketId code Symbol.O name,
                   rooms := updateRoom st.rooms code
                     (fun rr => { rr with player2Id := some sock.socketId,
                                          gameStatus := .playing }) },
         { sock with roomCode := some code, playerSymbol := some Symbol.O }, .ok Symbol.O) := by
  unfold joinRoom
  simp only [hroom]
  rw [if_neg (by omega)]
  by_cases h0 : (connectedPlayers st.players code).length = 0
  · rw [if_pos h0]
    simp [h0]
  · rw [if_neg h0]
    simp [h0]

theorem joinRoom_first (st : Store) (sock : Session) (code name : String) (r : Room)
    (hroom : lookupRoom st.rooms code = some r)
    (h0 : (connectedPlayers st.players code).length = 0) :
    (joinRoom st sock code name).1.rooms =
      updateRoom st.rooms code (fun rr => { rr with player1Id := some sock.socketId }) ∧
    (joinRoom st sock code name).1.players =
      upsertPlayer st.players sock.socketId code Symbol.X name ∧
    (joinRoom st sock code name).2.2 = .ok Symbol.X := by
  unfold joinRoom
  simp only [hroom]
  rw [if_neg (by omega)]
  refine ⟨?_, ?_, ?_⟩ <;> simp [h0]

theorem joinRoom_second (st : Store) (sock : Session) (code name : String) (r : Room)
    (hroom : lookupRoom st.rooms code = some r)
    (h0 : (connectedPlayers st.players code).length ≠ 0)
    (hlt : (connectedPlayers st.players code).length < 2) :
    (joinRoom st sock code name).1.rooms =
      updateRoom st.rooms code
        (fun rr => { rr with player2Id := some sock.socketId, gameStatus := .playing }) ∧
    (joinRoom st sock code name).1.players =
      upsertPlayer st.players sock.socketId code Symbol.O name ∧
    (joinRoom st sock code name).2.2 = .ok Symbol.O := by
  unfold joinRoom
  simp only [hroom]
  rw [if_neg (by omega)]
  refine ⟨?_, ?_, ?_⟩ <;> simp [h0]

theorem joinRoom_full (st : Store) (sock : Session) (code name : String) (r : Room)
    (hroom : lookupRoom st.rooms code = some r)
    (hfull : 2 ≤ (connectedPlayers st.players code).length) :
    joinRoom st sock code name = (st, sock, .error .RoomFull) := by
  unfold joinRoom
  simp only [hroom]
  rw [if_pos hfull]

/-- C3 counterexample: Alice (s1) joins a fresh room and receives X, Bob (s2)
receives O; Alice disconnects and reconnects under the new socket s3 — and is
handed O, not her old X, leaving the room with two connected players that
hold the same symbol O.  Symbols are therefore neither stable across
reconnects nor unique among connected players. -/
theorem C3_reconnect_reassigns_symbol :
    (joinRoom oneRoomStore ⟨"s1", none, none⟩ "ABC123" "Alice").2.2 = .ok Symbol.X ∧
    (joinRoom c3Store1 ⟨"s2", none, none⟩ "ABC123" "Bob").2.2 = .ok Symbol.O ∧
    (joinRoom c3Store3 ⟨"s3", none, none⟩ "ABC123" "Carol").2.2 = .ok Symbol.O ∧
    (connectedPlayers c3Store4.players "ABC123").map Player.symbol =
      [Symbol.O, Symbol.O] ∧
    (connectedPlayers c3Store4.players "ABC123").map Player.socketId = ["s2", "s3"] := by
  refine ⟨rfl, rfl, rfl, rfl, rfl⟩

/-- C3 (amended): a joiner's symbol is recomputed at each join from the live
count of connected players — X exactly when no connected player exists, O
otherwise.  Whenever a room is below two connected players, any join
succeeds with that recomputed symbol, so a reconnecting player can receive a
different symbol than before and two connected players can share O. -/
theorem C3_symbol_from_live_count (st : Store) (sock : Session) (code name : String)
    (r : Room)
    (hroom : lookupRoom st.rooms code = some r)
    (hcount : (connectedPlayers st.players code).length < 2) :
    (joinRoom st sock code name).2.2 =
      .ok (if (connectedPlayers st.players code).length = 0 then Symbol.X else Symbol.O) := by
  rw [joinRoom_shape st sock code name r hroom hcount]
  by_cases h0 : (connectedPlayers st.players code).length = 0
  · rw [if_pos h0, if_pos h0]
  · rw [if_neg h0, if_neg h0]

/-- Witness for C3 (amended): the reconnect join of the scenario gets O
because one connected player (Bob) exists at join time. -/
theorem C3_symbol_from_live_count_witness :
    (joinRoom c3Store3 ⟨"s3", none, none⟩ "ABC123" "Carol").2.2 =
      .ok (if (connectedPlayers c3Store3.players "ABC123").length = 0
           then Symbol.X else Symbol.O) :=
  C3_symbol_from_live_count c3Store3 ⟨"s3", none, none⟩ "ABC123" "Carol"
    { player1Id := some "s1", player2Id := some "s2", currentPlayer := .X,
      board := emptyBoard, gameStatus := .playing, winner := none }
    (by decide) (by decide)

/-- C4: on a fresh waiting room with no player rows, the first joiner gets X
and the room stays waiting; a second, distinct joiner gets O and the room
becomes playing; a third join attempt is refused with RoomFull and changes
neither the store nor the joining session. -/
theorem C4_join_sequencing (st : Store) (r : Room) (code n1 n2 n3 s1 s2 s3 : String)
    (hroom : lookupRoom st.rooms code = some r)
    (hwait : r.gameStatus = .waiting)
    (hempty : connectedPlayers st.players code = [])
    (hs1 : st.players.any (fun p => decide (p.socketId = s1)) = false)
    (hs2 : st.players.any (fun p => decide (p.socketId = s2)) = false)
    (hne : s1 ≠ s2) :
    (joinRoom st ⟨s1, none, none⟩ code n1).2.2 = .ok Symbol.X ∧
    (∃ r1, lookupRoom (joinRoom st ⟨s1, none, none⟩ code n1).1.rooms code = some r1 ∧
      r1.gameStatus = .waiting) ∧
    (joinRoom (joinRoom st ⟨s1, none, none⟩ code n1).1 ⟨s2, none, none⟩ code n2).2.2 =
      .ok Symbol.O ∧
    (∃ r2, lookupRoom
        (joinRoom (joinRoom st ⟨s1, none, none⟩ code n1).1 ⟨s2, none, none⟩ code n2).1.rooms
        code = some r2 ∧ r2.gameStatus = .playing) ∧
    joinRoom (joinRoom (joinRoom st ⟨s1, none, none⟩ code n1).1 ⟨s2, none, none⟩ code n2).1
        ⟨s3, none, none⟩ code n3 =
      ((joinRoom (joinRoom st ⟨s1, none, none⟩ code n1).1 ⟨s2, none, none⟩ code n2).1,
       ⟨s3, none, none⟩, .error .RoomFull) := by
  have hcnt0 : (connectedPlayers st.players code).length = 0 := by rw [hempty]; rfl
  obtain ⟨hrA, hpA, hokA⟩ := joinRoom_first st ⟨s1, none, none⟩ code n1 r hroom hcnt0
  have hroomA : lookupRoom (joinRoom st ⟨s1, none, none⟩ code n1).1.rooms code =
      some { r with player1Id := some s1 } := by
    rw [hrA, lookupRoom_updateRoom_self, hroom]
    rfl
  have hplayersA : (joinRoom st ⟨s1, none, none⟩ code n1).1.players =
      st.players ++ [{ socketId := s1, roomCode := code, symbol := Symbol.X,
                       name := n1, connected := true }] := by
    rw [hpA]
    exact upsertPlayer_fresh st.players s1 code Symbol.X n1 hs1
  have hcntA : (connectedPlayers (joinRoom st ⟨s1, none, none⟩ code n1).1.players code).length
      = 1 := by
    rw [hplayersA, connectedPlayers_append, hempty]
    simp [connectedPlayers]
  obtain ⟨hrB, hpB, hokB⟩ := joinRoom_second (joinRoom st ⟨s1, none, none⟩ code n1).1
    ⟨s2, none, none⟩ code n2 { r with player1Id := some s1 } hroomA (by omega) (by omega)
  have hanyA : (joinRoom st ⟨s1, none, none⟩ code n1).1.players.any
      (fun p => decide (p.socketId = s2)) = false := by
    rw [hplayersA, List.any_append]
    simp [hs2, hne]
  have hroomB : lookupRoom (joinRoom (joinRoom st ⟨s1, none, none⟩ code n1).1
      ⟨s2, none, none⟩ code n2).1.rooms code =
      some { r with player1Id := some s1, player2Id := some s2, gameStatus := .playing } := by
    rw [hrB, lookupRoom_updateRoom_self, hroomA]
    rfl
  have hplayersB : (joinRoom (joinRoom st ⟨s1, none, none⟩ code n1).1
      ⟨s2, none, none⟩ code n2).1.players =
      (joinRoom st ⟨s1, none, none⟩ code n1).1.players ++
        [{ socketId := s2, roomCode := code, symbol := Symbol.O,
           name := n2, connected := true }] := by
    rw [hpB]
    exact upsertPlayer_fresh _ s2 code Symbol.O n2 hanyA
  have hcntB : (connectedPlayers (joinRoom (joinRoom st ⟨s1, none, none⟩ code n1).1
      ⟨s2, none, none⟩ code n2).1.players code).length = 2 := by
    rw [hplayersB, connectedPlayers_append, hplayersA, connectedPlayers_append, hempty]
    simp [connectedPlayers]
  refine ⟨hokA, ⟨_, hroomA, hwait⟩, hokB, ⟨_, hroomB, rfl⟩, ?_⟩
  exact joinRoom_full _ ⟨s3, none, none⟩ code n3 _ hroomB (by omega)

/-- Witness for C4 on the concrete fresh room store. -/
theorem C4_join_sequencing_witness :
    (joinRoom oneRoomStore ⟨"w1", none, none⟩ "ABC123" "Alice").2.2 = .ok Symbol.X ∧
    (∃ r1, lookupRoom (joinRoom oneRoomStore ⟨"w1", none, none⟩ "ABC123" "Alice").1.rooms
        "ABC123" = some r1 ∧ r1.gameStatus = .waiting) ∧
    (joinRoom (joinRoom oneRoomStore ⟨"w1", none, none⟩ "ABC123" "Alice").1
        ⟨"w2", none, none⟩ "ABC123" "Bob").2.2 = .ok Symbol.O ∧
    (∃ r2, lookupRoom (joinRoom (joinRoom oneRoomStore ⟨"w1", none, none⟩ "ABC123" "Alice").1
        ⟨"w2", none, none⟩ "ABC123" "Bob").1.rooms "ABC123" = some r2 ∧
      r2.gameStatus = .playing) ∧
    joinRoom (joinRoom (joinRoom oneRoomStore ⟨"w1", none, none⟩ "ABC123" "Alice").1
        ⟨"w2", none, none⟩ "ABC123" "Bob").1 ⟨"w3", none, none⟩ "ABC123" "Caro" =
      ((joinRoom (joinRoom oneRoomStore ⟨"w1", none, none⟩ "ABC123" "Alice").1
        ⟨"w2", none, none⟩ "ABC123" "Bob").1, ⟨"w3", none, none⟩, .error .RoomFull) :=
  C4_join_sequencing oneRoomStore freshRoom "ABC123" "Alice" "Bob" "Caro" "w1" "w2" "w3"
    (by decide) (by decide) (by decide) (by decide) (by decide) (by decide)

/-- C7 counterexample: a join on a fresh room whose second write (the room
UPDATE) fails reports the failure but leaves the freshly inserted player row
committed — the store is not what it was before the action began. -/
theorem C7_partial_join_mutation :
    (joinRoomFaulty oneRoomStore ⟨"s1", none, none⟩ "ABC123" "Alice" 1).2 = true ∧
    (joinRoomFaulty oneRoomStore ⟨"s1", none, none⟩ "ABC123" "Alice" 1).1.players =
      [{ socketId := "s1", roomCode := "ABC123", symbol := Symbol.X,
         name := "Alice", connected := true }] ∧
    (joinRoomFaulty oneRoomStore ⟨"s1", none, none⟩ "ABC123" "Alice" 1).1.rooms =
      oneRoomStore.rooms ∧
    (joinRoomFaulty oneRoomStore ⟨"s1", none, none⟩ "ABC123" "Alice" 1).1 ≠ oneRoomStore := by
  refine ⟨by decide, by decide, by decide, by decide⟩

/-- C7 (amended): a persistence failure aborts the remainder of the action and
only an error is reported, but writes already committed are not rolled back:
a fault before any write leaves the store unchanged (join and move alike); a
fault after join's player upsert leaves the player row persisted while the
rooms table is untouched; and move's room mutation is one single-statement
write, so the room row is always either the old row or the fully updated
one. -/
theorem C7_fault_no_rollback (st : Store) (sock : Session) (code name : String)
    (pos : Int) :
    (joinRoomFaulty st sock code name 0).1 = st ∧
    (∀ r, lookupRoom st.rooms code = some r →
      (connectedPlayers st.players code).length < 2 →
      (joinRoomFaulty st sock code name 0).2 = true ∧
      joinRoomFaulty st sock code name 1 =
        ({ st with players := upsertPlayer st.players sock.socketId code
                                (if (connectedPlayers st.players code).length = 0
                                 then Symbol.X else Symbol.O) name },
         true)) ∧
    (makeMoveFaulty st sock code pos 0).1 = st ∧
    (∀ okw, (makeMoveFaulty st sock code pos okw).1.rooms = st.rooms ∨
      ∃ room, lookupRoom st.rooms code = some room ∧
        (makeMoveFaulty st sock code pos okw).1.rooms =
          updateRoom st.rooms code (movedRoom room pos)) := by
  refine ⟨?_, ?_, ?_, ?_⟩
  · unfold joinRoomFaulty
    split
    · rfl
    split
    · rfl
    rfl
  · intro r hr hlt
    constructor
    · unfold joinRoomFaulty
      simp only [hr]
      rw [if_neg (by omega)]
      simp
    · unfold joinRoomFaulty
      simp only [hr]
      rw [if_neg (by omega)]
      by_cases h0 : (connectedPlayers st.players code).length = 0
      · simp [h0]
      · simp [h0]
  · unfold makeMoveFaulty
    split
    · rfl
    split
    · rfl
    split
    · rfl
    split
    · rfl
    split
    · rfl
    rfl
  · intro okw
    unfold makeMoveFaulty
    split
    · exact Or.inl rfl
    split
    · exact Or.inl rfl
    next room heq =>
      split
      · exact Or.inl rfl
      split
      · exact Or.inl rfl
      split
      · exact Or.inl rfl
      split
      · exact Or.inl rfl
      exact Or.inr ⟨room, heq, rfl⟩

/-- Witness for C7 (amended) on the concrete fresh room store. -/
theorem C7_fault_no_rollback_witness :
    (joinRoomFaulty oneRoomStore ⟨"s2", none, none⟩ "ABC123" "Bob" 0).1 = oneRoomStore ∧
    (joinRoomFaulty oneRoomStore ⟨"s2", none, none⟩ "ABC123" "Bob" 0).2 = true ∧
    joinRoomFaulty oneRoomStore ⟨"s2", none, none⟩ "ABC123" "Bob" 1 =
      ({ oneRoomStore with players := upsertPlayer oneRoomStore.players "s2" "ABC123"
                                        (if (connectedPlayers oneRoomStore.players
                                               "ABC123").length = 0
                                         then Symbol.X else Symbol.O) "Bob" },
       true) ∧
    (makeMoveFaulty oneRoomStore ⟨"s2", none, none⟩ "ABC123" 0 0).1 = oneRoomStore := by
  have t := C7_fault_no_rollback oneRoomStore ⟨"s2", none, none⟩ "ABC123" "Bob" 0
  exact ⟨t.1, (t.2.1 freshRoom (by decide) (by decide)).1,
    (t.2.1 freshRoom (by decide) (by decide)).2, t.2.2.1⟩

/-- C8: starting from a playing room with currentPlayer X, after a sequence of
successfully applied moves at the end of which the room is still playing (so
no move produced a winner), currentPlayer is X when the number of moves is
even and O when it is odd. -/
theorem C8_turn_parity (st st' : Store) (code : String) (moves : List (Session × Int))
    (room room2 : Room)
    (happ : applyMoves st code moves = some st')
    (hr : lookupRoom st.rooms code = some room)
    (hplay : room.gameStatus = .playing)
    (hX : room.currentPlayer = .X)
    (hr2 : lookupRoom st'.rooms code = some room2)
    (hplay2 : room2.gameStatus = .playing) :
    room2.currentPlayer = if moves.length % 2 = 0 then Symbol.X else Symbol.O := by
  have h := applyMoves_currentPlayer code moves st st' room room2 happ hr hr2
  rw [h, hX]
  by_cases hp : moves.length % 2 = 0
  · rw [if_pos hp, if_pos hp]
  · rw [if_neg hp, if_neg hp]
    rfl

/-- Witness for C8: two alternating moves bring currentPlayer back to X. -/
theorem C8_turn_parity_witness :
    c8Room2.currentPlayer = if c8Moves.length % 2 = 0 then Symbol.X else Symbol.O :=
  C8_turn_parity wStorePlaying c8Final "ABC123" c8Moves playingRoom c8Room2
    (by decide) (by decide) (by decide) (by decide) (by decide) (by decide)

end TicTacToe
